import Mathlib

/-!
Verification of the admission-control and dispatch core of a chat-driven
image-generation front end (`dallebot/__main__.py`).

Modelling conventions:
* Wall-clock instants are integers: seconds since 2022-01-01 00:00:00
  (the fixed sentinel used by the code as the default last timestamp).
  Naive datetime arithmetic has no timezone or DST jumps, so every
  calendar midnight falls at a multiple of 86400 in this scale.
* The pandas dataframe `df` is a list of `UsageRecord` rows; a `concat`
  followed by `to_csv` is an append plus a persist event.
* Python `timedelta.seconds` is the normalized seconds component of the
  difference: for integer-second datetimes it equals the difference
  modulo 86400 (floor/euclidean modulus, result in `[0, 86400)`).
* Python `hash` on `int` is `n % (2^61 - 1)` for `n ≥ 0` (negatives get
  the negated magnitude hash) with a final `-1 ↦ -2` adjustment.
* The external moderation and generation calls are parametrised by an
  `ExternalWorld` giving each call's result; observable side effects
  (dataframe writes, bot sends, provider calls) are collected in an
  event trace, in program order.
* The `telegram.ext` conversation-state integers `MESSAGE` and
  `EMPTY_MESSAGE` (`range(2)`) are the `Nat` constants 0 and 1; a
  handler that lets an exception escape yields return value `none`.
-/

/-- `min_requests_delay = 60  # in seconds`. -/
def min_requests_delay : Int := 60

/-- `max_images_per_day = 5`. -/
def max_images_per_day : Nat := 5

/-- `MESSAGE, EMPTY_MESSAGE = range(2)`: conversation state 0. -/
def MESSAGE : Nat := 0

/-- `MESSAGE, EMPTY_MESSAGE = range(2)`: conversation state 1. -/
def EMPTY_MESSAGE : Nat := 1

/-- One row of the usage dataframe, columns
`["group", "timestamp", "prompt", "size", "hashed_user"]`. -/
structure UsageRecord where
  is_group : Bool
  timestamp : Int
  prompt : String
  size : Nat
  hashed_user : Int
deriving Repr, DecidableEq

/-- The parts of the incoming update the controller reads: the chat id and
whether `"group" in update.message.chat.type`. -/
structure ChatContext where
  chat_id : Int
  is_group : Bool
deriving Repr, DecidableEq

/-- The configuration bundle; only the operator destination matters here. -/
structure Config where
  developer_chat_id : Int
deriving Repr, DecidableEq

/-- Result of one external provider call: a value, an
`InvalidRequestError`/`RateLimitError` (caught and reported), or any
other exception (re-raised). -/
inductive ProviderResult (α : Type) where
  | ok (a : α)
  | requestError (msg : String)
  | fatal (msg : String)
deriving Repr, DecidableEq

/-- The responses the external provider would give to this request:
the moderation verdict (`flagged`) and the generation result (image url). -/
structure ExternalWorld where
  moderation : ProviderResult Bool
  generation : ProviderResult String
deriving Repr, DecidableEq

/-- Observable side effects of one handler invocation, in program order. -/
inductive Event where
  | typing (chat_id : Int)
  | appendRecord (r : UsageRecord)
  | persistLedger
  | moderationCall (prompt : String)
  | generationCall (prompt : String) (n : Nat) (size : String) (user : Int)
  | sendMessage (dest : Int) (text : String)
  | sendPhoto (dest : Int) (url : String) (caption : String)
deriving Repr, DecidableEq

/-- The admission/dispatch outcome taxonomy of the specification; each
constructor tags exactly one branch of the code. -/
inductive Outcome where
  | TooSoon (retry_after : Int)
  | QuotaExceeded
  | PromptRequired
  | Blocked
  | Delivered (url : String)
  | ProviderError (msg : String)
  | Fatal
deriving Repr, DecidableEq

/-- Everything observable about one handler invocation: the branch taken,
the dataframe afterwards, the event trace, and the handler's return value
(`none` when an exception escapes to the error handler). -/
structure StepResult where
  outcome : Outcome
  df : List UsageRecord
  events : List Event
  ret : Option Nat
deriving Repr, DecidableEq

/-- CPython `hash` on `int`: reduction modulo the Mersenne prime
`2^61 - 1`, sign-preserving, with `-1` adjusted to `-2`. -/
def pyHash (n : Int) : Int :=
  let m : Int := 2 ^ 61 - 1
  let r : Int := if 0 ≤ n then n % m else -((-n) % m)
  if r = -1 then -2 else r

/-- `max(df[df.hashed_user == hashed_user]["timestamp"],
default=datetime.datetime.strptime("2022-01-01", "%Y-%m-%d"))`:
the latest recorded timestamp for this identity, or the sentinel
2022-01-01 00:00:00 (instant 0) when the identity has no rows. -/
def maxTimestampFor (df : List UsageRecord) (hashed_user : Int) : Int :=
  match (df.filter (fun r => r.hashed_user == hashed_user)).map (fun r => r.timestamp) with
  | [] => 0
  | t :: ts => ts.foldl max t

/-- `datetime.datetime.combine(datetime.date.today(),
datetime.datetime.min.time())`: midnight at the start of the current
calendar day, i.e. `now` floored to a multiple of 86400. -/
def dayStart (now : Int) : Int :=
  86400 * Int.fdiv now 86400

/-- `(datetime_now - max_datetime_for_user).seconds`: the normalized
seconds component of the timedelta, i.e. the difference modulo 86400
(NOT `total_seconds()`). -/
def secondsDiff (df : List UsageRecord) (hashed_user : Int) (now : Int) : Int :=
  Int.emod (now - maxTimestampFor df hashed_user) 86400

/-- `df[df.hashed_user == hashed_user][df.timestamp >= today].shape[0]`:
how many rows this identity has with timestamp at or after today's
midnight. -/
def countToday (df : List UsageRecord) (hashed_user : Int) (now : Int) : Nat :=
  (df.filter (fun r => r.hashed_user == hashed_user && dayStart now ≤ r.timestamp)).length

/-- `generate(update, context, prompt, chat_id, datetime_now, hashed_user,
size=256)`: append and persist the usage row, then run the moderation
call and, when clean, the generation call, routing results to the
requester and the operator channel. -/
def generate (cfg : Config) (df : List UsageRecord) (ctx : ChatContext)
    (prompt : String) (datetime_now : Int) (hashed_user : Int)
    (world : ExternalWorld) (size : Nat := 256) : StepResult :=
  let row : UsageRecord :=
    { is_group := ctx.is_group, timestamp := datetime_now, prompt := prompt,
      size := size, hashed_user := hashed_user }
  let df2 := df ++ [row]
  let is_group_text := if ctx.is_group then "group: " else "single user: "
  let base : List Event :=
    [Event.typing ctx.chat_id, Event.appendRecord row, Event.persistLedger,
     Event.moderationCall prompt]
  match world.moderation with
  | ProviderResult.fatal _ =>
      { outcome := Outcome.Fatal, df := df2, events := base, ret := none }
  | ProviderResult.requestError e =>
      { outcome := Outcome.ProviderError e, df := df2,
        events := base ++
          [Event.sendMessage ctx.chat_id e,
           Event.sendMessage cfg.developer_chat_id (prompt ++ "\n" ++ e)],
        ret := some MESSAGE }
  | ProviderResult.ok flagged =>
      if flagged then
        { outcome := Outcome.Blocked, df := df2,
          events := base ++
            [Event.sendMessage ctx.chat_id
               "This prompt doesn\x27t comply with OpenAI\x27s content policy.",
             Event.sendMessage cfg.developer_chat_id
               ("This prompt doesn\x27t comply with OpenAI\x27s content policy: "
                 ++ prompt ++ ".")],
          ret := some MESSAGE }
      else
        let genCall :=
          Event.generationCall prompt 1 (toString size ++ "x" ++ toString size) hashed_user
        match world.generation with
        | ProviderResult.fatal _ =>
            { outcome := Outcome.Fatal, df := df2, events := base ++ [genCall],
              ret := none }
        | ProviderResult.requestError e =>
            { outcome := Outcome.ProviderError e, df := df2,
              events := base ++
                [genCall,
                 Event.sendMessage ctx.chat_id e,
                 Event.sendMessage cfg.developer_chat_id (prompt ++ "\n" ++ e)],
              ret := some MESSAGE }
        | ProviderResult.ok url =>
            { outcome := Outcome.Delivered url, df := df2,
              events := base ++
                [genCall,
                 Event.sendPhoto ctx.chat_id url prompt,
                 Event.sendPhoto cfg.developer_chat_id url (is_group_text ++ prompt)],
              ret := some MESSAGE }

/-- `check_if_prompt_empty_and_message_not_too_early(update, context,
prompt)`: the two admission checks (interval, then daily quota), then the
empty-prompt check, then dispatch through `generate`. -/
def check_if_prompt_empty_and_message_not_too_early
    (cfg : Config) (df : List UsageRecord) (ctx : ChatContext)
    (user_id : Int) (prompt : String) (now : Int)
    (world : ExternalWorld) : StepResult :=
  let hashed_user := pyHash user_id
  let seconds_diff := secondsDiff df hashed_user now
  if seconds_diff < min_requests_delay then
    { outcome := Outcome.TooSoon (min_requests_delay - seconds_diff), df := df,
      events :=
        [Event.sendMessage ctx.chat_id
          ("Sorry, due to resource constraints, it\x27s only allowed to send one request per "
            ++ toString min_requests_delay ++ " seconds.\nPlease try again in "
            ++ toString (min_requests_delay - seconds_diff) ++ " seconds.")],
      ret := some EMPTY_MESSAGE }
  else if countToday df hashed_user now > max_images_per_day then
    { outcome := Outcome.QuotaExceeded, df := df,
      events :=
        [Event.sendMessage ctx.chat_id
          ("Sorry, as the image generation is not for free, there is a limit of "
            ++ toString max_images_per_day ++ " per day. Please try again tomorrow.")],
      ret := some EMPTY_MESSAGE }
  else if prompt.length == 0 || prompt == "" then
    { outcome := Outcome.PromptRequired, df := df,
      events :=
        [Event.sendMessage ctx.chat_id "K let\x27s do this! What image should I generate?"],
      ret := some EMPTY_MESSAGE }
  else
    generate cfg df ctx prompt now hashed_user world

/-- Python `str.strip()`: drop whitespace from both ends (character-list
semantics, covering the ASCII whitespace the claims exercise). -/
def pyStrip (s : String) : String :=
  String.mk (((s.data.dropWhile Char.isWhitespace).reverse.dropWhile Char.isWhitespace).reverse)

/-- `generate_from_command`: the `/generate` command entry point;
`prompt = (" ".join(context.args)).strip()`. -/
def generate_from_command (cfg : Config) (df : List UsageRecord) (ctx : ChatContext)
    (user_id : Int) (args : List String) (now : Int) (world : ExternalWorld) : StepResult :=
  check_if_prompt_empty_and_message_not_too_early cfg df ctx user_id
    (pyStrip (String.intercalate " " args)) now world

/-- `generate_from_message`: the plain-text entry point used while
awaiting a prompt; `prompt = update.message.text.strip()`. -/
def generate_from_message (cfg : Config) (df : List UsageRecord) (ctx : ChatContext)
    (user_id : Int) (text : String) (now : Int) (world : ExternalWorld) : StepResult :=
  check_if_prompt_empty_and_message_not_too_early cfg df ctx user_id
    (pyStrip text) now world

/-- Python `html.escape(s)` (with quoting) on one character. -/
def htmlEscapeChar (c : Char) : List Char :=
  if c = '&' then "&amp;".data
  else if c = '<' then "&lt;".data
  else if c = '>' then "&gt;".data
  else if c = Char.ofNat 34 then "&quot;".data
  else if c = Char.ofNat 39 then "&#x27;".data
  else [c]

/-- Python `html.escape` over a whole string (as a character list). -/
def htmlEscape : List Char → List Char
  | [] => []
  | c :: cs => htmlEscapeChar c ++ htmlEscape cs

/-- The operator diagnostic built by `error_handler`: the fixed header
line, an opening pre tag, and the HTML-escaped traceback, sliced to the
first 4090 characters and closed with a pre end tag. -/
def errorMessage (tb_string : List Char) : List Char :=
  (("An exception was raised while handling an update\n<pre>".data
      ++ htmlEscape tb_string).take 4090)
    ++ "</pre>".data

/-- `error_handler(update, context)`: sends the escaped, truncated
diagnostic to the operator channel and returns `MESSAGE`. -/
def error_handler (cfg : Config) (tb_string : List Char) : Int × List Char × Nat :=
  (cfg.developer_chat_id, errorMessage tb_string, MESSAGE)

/-- Spec-side transition table (the amended one): `PromptRequired`,
`TooSoon` and `QuotaExceeded` all hand the conversation to the
await-a-prompt state `EMPTY_MESSAGE`; `Blocked`, `Delivered` and
`ProviderError` return to the command state `MESSAGE`; an escaped
exception produces no return value. -/
def stateForOutcome : Outcome → Option Nat
  | Outcome.TooSoon _ => some EMPTY_MESSAGE
  | Outcome.QuotaExceeded => some EMPTY_MESSAGE
  | Outcome.PromptRequired => some EMPTY_MESSAGE
  | Outcome.Blocked => some MESSAGE
  | Outcome.Delivered _ => some MESSAGE
  | Outcome.ProviderError _ => some MESSAGE
  | Outcome.Fatal => none

/-- Spec-side predicate for C10: a trace event either fixes the stored
size at 256 and the provider request at one 256x256 image, or is not a
size-bearing event at all. -/
def sizeOK : Event → Bool
  | Event.appendRecord r => r.size == 256
  | Event.generationCall _ n s _ => n == 1 && s == "256x256"
  | _ => true

/-! ### Concrete inputs used by closed theorems and witnesses -/

/-- A concrete configuration: operator channel 999. -/
def cfg0 : Config := { developer_chat_id := 999 }

/-- A concrete single-user chat with id 7. -/
def ctx0 : ChatContext := { chat_id := 7, is_group := false }

/-- A provider world where the prompt is clean and generation succeeds. -/
def w0 : ExternalWorld :=
  { moderation := ProviderResult.ok false, generation := ProviderResult.ok "http://img" }

/-- One accepted request by user 42 at instant 864000 (midnight of day 10). -/
def row864000 : UsageRecord :=
  { is_group := false, timestamp := 864000, prompt := "cat", size := 256, hashed_user := 42 }

/-- Six accepted requests by user 42, all on day 10. -/
def df6 : List UsageRecord := List.replicate 6 row864000

/-! ### Helper lemmas (shared) -/

/-- `generate` always begins with the same four events - typing indicator,
row append, ledger persist, moderation call - and always leaves the row
appended to the dataframe, whatever the provider does. -/
theorem generate_take4 (cfg : Config) (df : List UsageRecord) (ctx : ChatContext)
    (prompt : String) (now : Int) (hu : Int) (world : ExternalWorld) (size : Nat) :
    (generate cfg df ctx prompt now hu world size).events.take 4
      = [Event.typing ctx.chat_id,
         Event.appendRecord
           { is_group := ctx.is_group, timestamp := now, prompt := prompt,
             size := size, hashed_user := hu },
         Event.persistLedger, Event.moderationCall prompt]
    ∧ (generate cfg df ctx prompt now hu world size).df
      = df ++ [{ is_group := ctx.is_group, timestamp := now, prompt := prompt,
                 size := size, hashed_user := hu }] := by
  rcases world with ⟨mo, ge⟩
  cases mo with
  | fatal m => exact ⟨rfl, rfl⟩
  | requestError e => exact ⟨rfl, rfl⟩
  | ok flagged =>
    cases flagged with
    | true => exact ⟨rfl, rfl⟩
    | false =>
      cases ge with
      | fatal m => exact ⟨rfl, rfl⟩
      | requestError e => exact ⟨rfl, rfl⟩
      | ok url => exact ⟨rfl, rfl⟩

/-- The handler return value of `generate` matches the spec-side
transition table on its outcome. -/
theorem generate_ret_state (cfg : Config) (df : List UsageRecord) (ctx : ChatContext)
    (prompt : String) (now : Int) (hu : Int) (world : ExternalWorld) (size : Nat) :
    (generate cfg df ctx prompt now hu world size).ret
      = stateForOutcome (generate cfg df ctx prompt now hu world size).outcome := by
  rcases world with ⟨mo, ge⟩
  cases mo with
  | fatal m => rfl
  | requestError e => rfl
  | ok flagged =>
    cases flagged with
    | true => rfl
    | false =>
      cases ge with
      | fatal m => rfl
      | requestError e => rfl
      | ok url => rfl

/-- `generate` never yields the admission outcomes: its branch is one of
`Fatal`, `ProviderError`, `Blocked`, `Delivered`. -/
theorem generate_outcome_ne_quota (cfg : Config) (df : List UsageRecord) (ctx : ChatContext)
    (prompt : String) (now : Int) (hu : Int) (world : ExternalWorld) (size : Nat) :
    (generate cfg df ctx prompt now hu world size).outcome ≠ Outcome.QuotaExceeded := by
  rcases world with ⟨mo, ge⟩
  cases mo with
  | fatal m => simp [generate]
  | requestError e => simp [generate]
  | ok flagged =>
    cases flagged with
    | true => simp [generate]
    | false =>
      cases ge with
      | fatal m => simp [generate]
      | requestError e => simp [generate]
      | ok url => simp [generate]

/-! ### Claim theorems -/

/-- C1: the claim says a first request from a new identity is never
rejected as TooSoon. The code disagrees: it reads `.seconds` of the
timedelta (the difference modulo 86400), not `total_seconds()`. At
instant 150768030 (30 seconds past a midnight, years after the
2022-01-01 sentinel) a brand-new identity is rejected with
`TooSoon 30`, even though the true gap since the sentinel fallback is
far above `min_requests_delay`. -/
theorem firstRequest_tooSoon_wraparound :
    (check_if_prompt_empty_and_message_not_too_early cfg0 [] ctx0 42 "cat"
        150768030 w0).outcome = Outcome.TooSoon 30
    ∧ min_requests_delay ≤ 150768030 - maxTimestampFor [] (pyHash 42) := by
  constructor
  · rfl
  · decide

/-- C2 counterexample: the claim says every outcome other than
`PromptRequired` leaves the conversation in the command state
(`MESSAGE`). At a concrete input the outcome is `TooSoon 30` and the
handler nevertheless returns `EMPTY_MESSAGE`, the await-a-prompt
state. -/
theorem tooSoon_moves_to_awaitingPrompt_cex :
    (check_if_prompt_empty_and_message_not_too_early cfg0 [row864000] ctx0 42 "dog"
        864030 w0).outcome = Outcome.TooSoon 30
    ∧ (check_if_prompt_empty_and_message_not_too_early cfg0 [row864000] ctx0 42 "dog"
        864030 w0).ret = some EMPTY_MESSAGE
    ∧ EMPTY_MESSAGE ≠ MESSAGE := by
  refine ⟨rfl, rfl, ?_⟩
  decide

/-- C2 (amended): the conversation-state transition actually implemented:
`TooSoon`, `QuotaExceeded` and `PromptRequired` all move to the
await-a-prompt state `EMPTY_MESSAGE`; `Blocked`, `Delivered` and
`ProviderError` return to the command state `MESSAGE`; a fatal provider
error escapes the handler. -/
theorem ret_matches_stateForOutcome (cfg : Config) (df : List UsageRecord)
    (ctx : ChatContext) (user_id : Int) (prompt : String) (now : Int)
    (world : ExternalWorld) :
    (check_if_prompt_empty_and_message_not_too_early cfg df ctx user_id prompt now
        world).ret
      = stateForOutcome
          (check_if_prompt_empty_and_message_not_too_early cfg df ctx user_id prompt now
            world).outcome := by
  unfold check_if_prompt_empty_and_message_not_too_early
  dsimp only
  split
  · rfl
  · split
    · rfl
    · split
      · rfl
      · exact generate_ret_state cfg df ctx prompt now (pyHash user_id) world 256

/-- C2 (amended) witness at a concrete input. -/
theorem ret_matches_stateForOutcome_witness :
    (check_if_prompt_empty_and_message_not_too_early cfg0 [] ctx0 42 "cat" 100000
        w0).ret
      = stateForOutcome
          (check_if_prompt_empty_and_message_not_too_early cfg0 [] ctx0 42 "cat" 100000
            w0).outcome :=
  ret_matches_stateForOutcome cfg0 [] ctx0 42 "cat" 100000 w0

/-- C3: with one accepted request at t = 864000, a second request at
t+59 is rejected `TooSoon` with retry 1 and one at t+60 is admitted
(delivered under a clean provider world), as the claim says; but the
claim's "any later time passes the interval check" fails: at
t+86430 (one day and 30 seconds later) the wrapped `.seconds`
difference is 30 and the request is rejected `TooSoon 30`, though the
true gap is far above `min_requests_delay`. -/
theorem interval_boundary_eval :
    (check_if_prompt_empty_and_message_not_too_early cfg0 [row864000] ctx0 42 "dog"
        864059 w0).outcome = Outcome.TooSoon 1
    ∧ (check_if_prompt_empty_and_message_not_too_early cfg0 [row864000] ctx0 42 "dog"
        864060 w0).outcome = Outcome.Delivered "http://img"
    ∧ (check_if_prompt_empty_and_message_not_too_early cfg0 [row864000] ctx0 42 "dog"
        950430 w0).outcome = Outcome.TooSoon 30
    ∧ min_requests_delay ≤ 950430 - maxTimestampFor [row864000] (pyHash 42) := by
  refine ⟨rfl, rfl, rfl, ?_⟩
  decide

/-- C8: the identity stored in the ledger is `hash(user_id)`, but
CPython's `hash` on an `int` below `2^61 - 1` is the identity map, so
for a realistic platform user id the "hashed" value persisted in the
row IS the raw user id: the derivation is deterministic but not
one-way, and the raw id does appear in stored records. -/
theorem pyHash_identity_on_raw_id :
    pyHash 123456789 = 123456789
    ∧ (check_if_prompt_empty_and_message_not_too_early cfg0 [] ctx0 123456789 "cat"
        100000 w0).df
      = [{ is_group := false, timestamp := 100000, prompt := "cat", size := 256,
           hashed_user := 123456789 }] := by
  constructor
  · decide
  · rfl

/-- Helper: `generate` with the default size satisfies the C10 size
discipline on every event it emits. -/
theorem generate_events_sizeOK (cfg : Config) (df : List UsageRecord) (ctx : ChatContext)
    (prompt : String) (now : Int) (hu : Int) (world : ExternalWorld) :
    ((generate cfg df ctx prompt now hu world).events.all sizeOK) = true := by
  rcases world with ⟨mo, ge⟩
  cases mo with
  | fatal m => rfl
  | requestError e => rfl
  | ok flagged =>
    cases flagged with
    | true => rfl
    | false =>
      cases ge with
      | fatal m => rfl
      | requestError e => rfl
      | ok url => rfl

/-- Helper: every event of the admission handler satisfies the C10 size
discipline, whatever branch is taken. -/
theorem check_events_sizeOK (cfg : Config) (df : List UsageRecord) (ctx : ChatContext)
    (user_id : Int) (prompt : String) (now : Int) (world : ExternalWorld) :
    ((check_if_prompt_empty_and_message_not_too_early cfg df ctx user_id prompt now
        world).events.all sizeOK) = true := by
  unfold check_if_prompt_empty_and_message_not_too_early
  dsimp only
  split
  · rfl
  · split
    · rfl
    · split
      · rfl
      · exact generate_events_sizeOK cfg df ctx prompt now (pyHash user_id) world

/-- Helper: on an empty prompt the admission handler never appends a
ledger row, and when both admission checks pass it takes the
`PromptRequired` branch. -/
theorem check_empty_prompt (cfg : Config) (df : List UsageRecord) (ctx : ChatContext)
    (user_id : Int) (now : Int) (world : ExternalWorld) :
    (check_if_prompt_empty_and_message_not_too_early cfg df ctx user_id "" now world).df = df
    ∧ (∀ row : UsageRecord,
        Event.appendRecord row
          ∉ (check_if_prompt_empty_and_message_not_too_early cfg df ctx user_id "" now
              world).events)
    ∧ (¬ secondsDiff df (pyHash user_id) now < min_requests_delay →
       ¬ countToday df (pyHash user_id) now > max_images_per_day →
       (check_if_prompt_empty_and_message_not_too_early cfg df ctx user_id "" now
           world).outcome
         = Outcome.PromptRequired) := by
  unfold check_if_prompt_empty_and_message_not_too_early
  dsimp only
  split
  next hc =>
    refine ⟨rfl, ?_, ?_⟩
    · intro row h
      simp at h
    · intro h1 _
      exact absurd hc h1
  next hc =>
    split
    next hq =>
      refine ⟨rfl, ?_, ?_⟩
      · intro row h
        simp at h
      · intro _ h2
        exact absurd hq h2
    next hq =>
      split
      next he =>
        refine ⟨rfl, ?_, ?_⟩
        · intro row h
          simp at h
        · intro _ _
          rfl
      next he =>
        exact absurd (by decide) he

/-- Helper: every character produced by `html.escape` for one input
character is neither `<` nor `>`. -/
theorem htmlEscapeChar_no_angle (x : Char) :
    ∀ c ∈ htmlEscapeChar x, c ≠ '<' ∧ c ≠ '>' := by
  intro c h
  unfold htmlEscapeChar at h
  by_cases h1 : x = '&'
  · rw [if_pos h1] at h
    exact (by decide : ∀ a ∈ "&amp;".data, a ≠ '<' ∧ a ≠ '>') c h
  rw [if_neg h1] at h
  by_cases h2 : x = '<'
  · rw [if_pos h2] at h
    exact (by decide : ∀ a ∈ "&lt;".data, a ≠ '<' ∧ a ≠ '>') c h
  rw [if_neg h2] at h
  by_cases h3 : x = '>'
  · rw [if_pos h3] at h
    exact (by decide : ∀ a ∈ "&gt;".data, a ≠ '<' ∧ a ≠ '>') c h
  rw [if_neg h3] at h
  by_cases h4 : x = Char.ofNat 34
  · rw [if_pos h4] at h
    exact (by decide : ∀ a ∈ "&quot;".data, a ≠ '<' ∧ a ≠ '>') c h
  rw [if_neg h4] at h
  by_cases h5 : x = Char.ofNat 39
  · rw [if_pos h5] at h
    exact (by decide : ∀ a ∈ "&#x27;".data, a ≠ '<' ∧ a ≠ '>') c h
  rw [if_neg h5] at h
  simp only [List.mem_singleton] at h
  subst h
  exact ⟨h2, h3⟩

/-- Helper: the escaped traceback contains no raw `<` or `>`. -/
theorem htmlEscape_no_angle (l : List Char) :
    ∀ c ∈ htmlEscape l, c ≠ '<' ∧ c ≠ '>' := by
  induction l with
  | nil =>
    intro c hc
    simp [htmlEscape] at hc
  | cons x xs ih =>
    intro c hc
    rw [htmlEscape] at hc
    rcases List.mem_append.mp hc with h | h
    · exact htmlEscapeChar_no_angle x c h
    · exact ih c h

/-- C4: whenever a request passes the interval check, the quota check
and the non-empty-prompt check, the usage row is appended to the
dataframe and the whole ledger persisted (events at positions 1 and 2)
strictly before the moderation call (position 3) and before any
generation call (which can only appear later in the trace); and the new
row stays in the dataframe whatever the provider then does, so a
flagged or failed external call still counts against the quota. -/
theorem record_persisted_before_external_calls (cfg : Config) (df : List UsageRecord)
    (ctx : ChatContext) (user_id : Int) (prompt : String) (now : Int)
    (world : ExternalWorld)
    (h1 : ¬ secondsDiff df (pyHash user_id) now < min_requests_delay)
    (h2 : ¬ countToday df (pyHash user_id) now > max_images_per_day)
    (h3 : (prompt.length == 0 || prompt == "") = false) :
    (check_if_prompt_empty_and_message_not_too_early cfg df ctx user_id prompt now
        world).events.take 4
      = [Event.typing ctx.chat_id,
         Event.appendRecord
           { is_group := ctx.is_group, timestamp := now, prompt := prompt,
             size := 256, hashed_user := pyHash user_id },
         Event.persistLedger, Event.moderationCall prompt]
    ∧ (check_if_prompt_empty_and_message_not_too_early cfg df ctx user_id prompt now
        world).df
      = df ++ [{ is_group := ctx.is_group, timestamp := now, prompt := prompt,
                 size := 256, hashed_user := pyHash user_id }] := by
  unfold check_if_prompt_empty_and_message_not_too_early
  dsimp only
  rw [if_neg h1, if_neg h2, if_neg (by simp [h3])]
  exact generate_take4 cfg df ctx prompt now (pyHash user_id) world 256

/-- C4 witness: a fresh identity with a non-empty prompt at instant
100000 passes all checks; its row is appended and persisted before the
external calls. -/
theorem record_persisted_before_external_calls_witness :
    (¬ secondsDiff [] (pyHash 42) 100000 < min_requests_delay)
    ∧ (¬ countToday [] (pyHash 42) 100000 > max_images_per_day)
    ∧ (("cat".length == 0 || "cat" == "") = false)
    ∧ ((check_if_prompt_empty_and_message_not_too_early cfg0 [] ctx0 42 "cat" 100000
          w0).events.take 4
        = [Event.typing ctx0.chat_id,
           Event.appendRecord
             { is_group := ctx0.is_group, timestamp := 100000, prompt := "cat",
               size := 256, hashed_user := pyHash 42 },
           Event.persistLedger, Event.moderationCall "cat"]
      ∧ (check_if_prompt_empty_and_message_not_too_early cfg0 [] ctx0 42 "cat" 100000
          w0).df
        = [] ++ [{ is_group := ctx0.is_group, timestamp := 100000, prompt := "cat",
                   size := 256, hashed_user := pyHash 42 }]) :=
  ⟨by decide, by decide, by decide,
   record_persisted_before_external_calls cfg0 [] ctx0 42 "cat" 100000 w0
     (by decide) (by decide) (by decide)⟩

/-- C5: once the interval check passes, the quota branch is taken
exactly when the identity's same-day row count strictly exceeds
`max_images_per_day = 5` (so exactly 5 same-day rows still pass), and
on that rejection the dataframe is unchanged and the only event is the
quota notice to the requester - no ledger write, no external call. -/
theorem quota_boundary (cfg : Config) (df : List UsageRecord) (ctx : ChatContext)
    (user_id : Int) (prompt : String) (now : Int) (world : ExternalWorld)
    (h1 : ¬ secondsDiff df (pyHash user_id) now < min_requests_delay) :
    ((check_if_prompt_empty_and_message_not_too_early cfg df ctx user_id prompt now
        world).outcome = Outcome.QuotaExceeded
      ↔ countToday df (pyHash user_id) now > max_images_per_day)
    ∧ (countToday df (pyHash user_id) now > max_images_per_day →
        (check_if_prompt_empty_and_message_not_too_early cfg df ctx user_id prompt now
            world).df = df
        ∧ (check_if_prompt_empty_and_message_not_too_early cfg df ctx user_id prompt now
            world).events
          = [Event.sendMessage ctx.chat_id
              ("Sorry, as the image generation is not for free, there is a limit of "
                ++ toString max_images_per_day ++ " per day. Please try again tomorrow.")]) := by
  constructor
  · constructor
    · intro h
      by_contra hq
      unfold check_if_prompt_empty_and_message_not_too_early at h
      dsimp only at h
      rw [if_neg h1, if_neg hq] at h
      split at h
      · simp at h
      · exact generate_outcome_ne_quota cfg df ctx prompt now (pyHash user_id) world 256 h
    · intro h
      unfold check_if_prompt_empty_and_message_not_too_early
      dsimp only
      rw [if_neg h1, if_pos h]
  · intro h
    unfold check_if_prompt_empty_and_message_not_too_early
    dsimp only
    rw [if_neg h1, if_pos h]
    exact ⟨rfl, rfl⟩

/-- C5 witness: user 42 with six same-day rows and a passing interval
check is rejected with `QuotaExceeded`, no write, no external call. -/
theorem quota_boundary_witness :
    (¬ secondsDiff df6 (pyHash 42) 864100 < min_requests_delay)
    ∧ (((check_if_prompt_empty_and_message_not_too_early cfg0 df6 ctx0 42 "dog" 864100
          w0).outcome = Outcome.QuotaExceeded
        ↔ countToday df6 (pyHash 42) 864100 > max_images_per_day)
      ∧ (countToday df6 (pyHash 42) 864100 > max_images_per_day →
          (check_if_prompt_empty_and_message_not_too_early cfg0 df6 ctx0 42 "dog" 864100
              w0).df = df6
          ∧ (check_if_prompt_empty_and_message_not_too_early cfg0 df6 ctx0 42 "dog" 864100
              w0).events
            = [Event.sendMessage ctx0.chat_id
                ("Sorry, as the image generation is not for free, there is a limit of "
                  ++ toString max_images_per_day ++ " per day. Please try again tomorrow.")])) :=
  ⟨by decide, quota_boundary cfg0 df6 ctx0 42 "dog" 864100 w0 (by decide)⟩

/-- C6: when the moderation result of an admitted request is flagged,
the branch taken is `Blocked`, no generation call ever appears in the
trace, the requester receives the generic policy notice, and the
operator channel receives the detailed notice carrying the prompt. -/
theorem flagged_blocks_generation (cfg : Config) (df : List UsageRecord)
    (ctx : ChatContext) (prompt : String) (now : Int) (hu : Int)
    (ge : ProviderResult String) (size : Nat) :
    (generate cfg df ctx prompt now hu
        { moderation := ProviderResult.ok true, generation := ge } size).outcome
      = Outcome.Blocked
    ∧ (∀ p n s u, Event.generationCall p n s u
        ∉ (generate cfg df ctx prompt now hu
            { moderation := ProviderResult.ok true, generation := ge } size).events)
    ∧ Event.sendMessage ctx.chat_id
        "This prompt doesn\x27t comply with OpenAI\x27s content policy."
        ∈ (generate cfg df ctx prompt now hu
            { moderation := ProviderResult.ok true, generation := ge } size).events
    ∧ Event.sendMessage cfg.developer_chat_id
        ("This prompt doesn\x27t comply with OpenAI\x27s content policy: " ++ prompt ++ ".")
        ∈ (generate cfg df ctx prompt now hu
            { moderation := ProviderResult.ok true, generation := ge } size).events := by
  refine ⟨rfl, ?_, ?_, ?_⟩
  · intro p n s u h
    simp [generate] at h
  · simp [generate]
  · simp [generate]

/-- C6 witness: a concrete flagged request is blocked and its policy
notice reaches the requester. -/
theorem flagged_blocks_generation_witness :
    (generate cfg0 [] ctx0 "cat" 100000 42
        { moderation := ProviderResult.ok true, generation := ProviderResult.ok "u" }
        256).outcome
      = Outcome.Blocked :=
  (flagged_blocks_generation cfg0 [] ctx0 "cat" 100000 42 (ProviderResult.ok "u") 256).1

/-- C7 counterexample: the claim says an empty-after-trim prompt always
yields `PromptRequired` regardless of interval or quota state. But the
code checks the interval first: a whitespace-only message sent 30
seconds after an accepted request is answered with `TooSoon 30`, not
`PromptRequired`. -/
theorem empty_prompt_tooSoon_cex :
    pyStrip "   " = ""
    ∧ (generate_from_message cfg0 [row864000] ctx0 42 "   " 864030 w0).outcome
        = Outcome.TooSoon 30
    ∧ Outcome.TooSoon 30 ≠ Outcome.PromptRequired := by
  refine ⟨by decide, rfl, ?_⟩
  decide

/-- C7 (amended): for every input whose prompt is empty or
whitespace-only after trimming - through either public entry point -
no ledger row is ever appended (the dataframe is unchanged and no
append event occurs), and when both admission checks pass the outcome
is `PromptRequired`. -/
theorem empty_prompt_no_append (cfg : Config) (df : List UsageRecord) (ctx : ChatContext)
    (user_id : Int) (now : Int) (world : ExternalWorld) :
    (∀ text : String, pyStrip text = "" →
      (generate_from_message cfg df ctx user_id text now world).df = df
      ∧ (∀ row : UsageRecord,
          Event.appendRecord row ∉ (generate_from_message cfg df ctx user_id text now
            world).events)
      ∧ (¬ secondsDiff df (pyHash user_id) now < min_requests_delay →
         ¬ countToday df (pyHash user_id) now > max_images_per_day →
         (generate_from_message cfg df ctx user_id text now world).outcome
           = Outcome.PromptRequired))
    ∧ (∀ args : List String, pyStrip (String.intercalate " " args) = "" →
      (generate_from_command cfg df ctx user_id args now world).df = df
      ∧ (∀ row : UsageRecord,
          Event.appendRecord row ∉ (generate_from_command cfg df ctx user_id args now
            world).events)
      ∧ (¬ secondsDiff df (pyHash user_id) now < min_requests_delay →
         ¬ countToday df (pyHash user_id) now > max_images_per_day →
         (generate_from_command cfg df ctx user_id args now world).outcome
           = Outcome.PromptRequired)) := by
  constructor
  · intro text ht
    unfold generate_from_message
    rw [ht]
    exact check_empty_prompt cfg df ctx user_id now world
  · intro args ha
    unfold generate_from_command
    rw [ha]
    exact check_empty_prompt cfg df ctx user_id now world

/-- C7 (amended) witness: a whitespace-only message from a fresh
identity at instant 100000 leaves the ledger unchanged and yields
`PromptRequired`. -/
theorem empty_prompt_no_append_witness :
    pyStrip "   " = ""
    ∧ (generate_from_message cfg0 [] ctx0 42 "   " 100000 w0).df = []
    ∧ (generate_from_message cfg0 [] ctx0 42 "   " 100000 w0).outcome
        = Outcome.PromptRequired :=
  ⟨by decide,
   ((empty_prompt_no_append cfg0 [] ctx0 42 100000 w0).1 "   " (by decide)).1,
   ((empty_prompt_no_append cfg0 [] ctx0 42 100000 w0).1 "   " (by decide)).2.2
     (by decide) (by decide)⟩

/-- C9: for every traceback text, the operator diagnostic built by the
error reporter is at most 4096 characters long (4090 sliced characters
plus the closing `</pre>` tag), the escaped traceback contains no raw
`<` or `>`, and the reporter's embedding is a total function that
returns `MESSAGE`. -/
theorem errorMessage_bounded_and_escaped (tb_string : List Char) :
    (errorMessage tb_string).length ≤ 4096
    ∧ (∀ c ∈ htmlEscape tb_string, c ≠ '<' ∧ c ≠ '>')
    ∧ (error_handler cfg0 tb_string).2.2 = MESSAGE := by
  refine ⟨?_, htmlEscape_no_angle tb_string, rfl⟩
  unfold errorMessage
  rw [List.length_append, List.length_take]
  have h6 : ("</pre>".data).length = 6 := rfl
  omega

/-- C9 witness: the diagnostic for a concrete hostile traceback is
bounded by 4096 characters. -/
theorem errorMessage_bounded_and_escaped_witness :
    (errorMessage ("<script>alert(1)</script>".data)).length ≤ 4096 :=
  (errorMessage_bounded_and_escaped ("<script>alert(1)</script>".data)).1

/-- C10: through both public handlers, every row appended to the ledger
has size 256 (the size parameter is never overridden on any call path)
and every generation request issued to the provider asks for exactly
one image of size "256x256". -/
theorem size_always_256 (cfg : Config) (df : List UsageRecord) (ctx : ChatContext)
    (user_id : Int) (now : Int) (world : ExternalWorld) :
    (∀ args : List String,
      ((generate_from_command cfg df ctx user_id args now world).events.all sizeOK) = true)
    ∧ (∀ text : String,
      ((generate_from_message cfg df ctx user_id text now world).events.all sizeOK) = true) := by
  constructor
  · intro args
    exact check_events_sizeOK cfg df ctx user_id (pyStrip (String.intercalate " " args)) now world
  · intro text
    exact check_events_sizeOK cfg df ctx user_id (pyStrip text) now world

/-- C10 witness: a concrete delivered request only carries size-256
events. -/
theorem size_always_256_witness :
    ((generate_from_command cfg0 [] ctx0 42 ["cat"] 100000 w0).events.all sizeOK) = true :=
  (size_always_256 cfg0 [] ctx0 42 100000 w0).1 ["cat"]
